import Mathlib

/-!
# taskq/publisher: the publish pipeline of `main.go`

A shallow embedding of the three HTTP handlers of `main.go` (`handlerIndex`,
`handlerMetrics`, `handlerPut`) over an explicit process state, followed by
the properties of the publish pipeline.

Modelling conventions.

* The package-level variables `Metrics` and `watchedRedisChannels`, together
  with the contents of the Redis server behind `rdb`, form the `World`.
* The `int32` counters are integers; `atomic.AddInt32` wraps around modulo
  `2^32` into the signed range, as the Go operation does.
* Go maps are association lists; the order of the list is the order in which
  a `range` loop happens to visit the entries.
* Go strings and byte slices are Lean strings; `string(p)` is the identity.
* The three collaborators that `handlerPut` calls into (`encoding/json`,
  `sonyflake`, `go-redis`) are not part of this repository: the result of
  `Decode` is a parameter `decode`, the result of `flake.NextID()` and the
  error of `rdb.RPush(...)` are inputs of the call.
* Every handler returns an `Outcome`: the new world, the response, the list of
  collaborator calls it made and the log events it emitted.
-/

namespace Publisher

/-! ## Constants -/

def ApplicationDescription : String := "TaskQ Redis Publisher"

def BuildVersion : String := "0.0.0"

def StatusOK : Nat := 200

def StatusInternalServerError : Nat := 500

def MaxInt32 : Int := 2147483647

def MinInt32 : Int := -2147483648

/-! ## Data model -/

/-- The struct `RedisRPushRequestStruct`: the decoded request body. -/
structure RedisRPushRequestStruct where
  Channel : String
  Payload : String
deriving DecidableEq, Repr

/-- The struct `MetricsStruct`. The five counters are `int32` fields,
`Started` is a timestamp, `WatchedChannels` is a `map[string]int64`. -/
structure MetricsStruct where
  Index : Int
  Warnings : Int
  Errors : Int
  Success : Int
  Put : Int
  Started : Nat
  WatchedChannels : List (String × Int)
deriving DecidableEq, Repr

/-- The mutable state the handlers act on: the package variables `Metrics`
and `watchedRedisChannels`, and the lists held by the Redis server. -/
structure World where
  Metrics : MetricsStruct
  watchedRedisChannels : List (String × Nat)
  store : String → List String

/-- The part of `*http.Request` the handlers read. -/
structure Request where
  URL : String
  Body : String
deriving DecidableEq, Repr

/-- A call made by a handler into one of its collaborators. -/
inductive Call where
  | Decode (body : String)
  | NextID
  | RPush (key : String) (value : String)
deriving DecidableEq, Repr

inductive Level where
  | debug
  | info
  | error
deriving DecidableEq, Repr

/-- One zerolog event: level, the fields attached to it, and the message. -/
structure LogEvent where
  level : Level
  err : Option String
  uid : Option Nat
  channel : Option String
  payload : Option String
  payload_size : Option Nat
  msg : String
deriving DecidableEq, Repr

/-- What one handler invocation leaves behind. -/
structure Outcome where
  world : World
  status : Nat
  body : String
  calls : List Call
  log : List LogEvent

/-! ## Machine arithmetic -/

/-- A value an `int32` field can hold. -/
def isInt32 (v : Int) : Prop := MinInt32 ≤ v ∧ v ≤ MaxInt32

instance (v : Int) : Decidable (isInt32 v) := by
  unfold isInt32; infer_instance

/-- Reduction of an integer into the `int32` range (two's complement). -/
def wrapInt32 (x : Int) : Int := (x + 2147483648) % 4294967296 - 2147483648

/-- The operation `atomic.AddInt32(addr, delta)`: the new value of the field. -/
def AddInt32 (addr : Int) (delta : Int) : Int := wrapInt32 (addr + delta)

/-! ## Collaborators -/

/-- Modelled from the spec: the Redis server is not part of this repository.
`RPUSH key value` is "appending one payload to the tail (end) of the named
list in the queue store"; a call that reports an error leaves the lists as
they were. The argument `err` is the value of `rdb.RPush(...).Err()`. -/
def RPush (err : Option String) (store : String → List String)
    (key : String) (value : String) : String → List String :=
  match err with
  | none => fun k => if k = key then store k ++ [value] else store k
  | some _ => store

/-- The function `html.EscapeString` of the Go standard library. -/
def EscapeString (s : String) : String :=
  String.join (s.data.map fun c =>
    if c = '&' then "&amp;"
    else if c = Char.ofNat 39 then "&#39;"
    else if c = '<' then "&lt;"
    else if c = '>' then "&gt;"
    else if c = '"' then "&#34;"
    else String.singleton c)

/-! ## Log events -/

def plainEvent (l : Level) (m : String) : LogEvent :=
  { level := l, err := none, uid := none, channel := none, payload := none,
    payload_size := none, msg := m }

def errEvent (e : String) (m : String) : LogEvent :=
  { level := Level.error, err := some e, uid := none, channel := none, payload := none,
    payload_size := none, msg := m }

def publishEvent (l : Level) (uid : Nat) (r : RedisRPushRequestStruct)
    (withPayload : Bool) (m : String) : LogEvent :=
  { level := l, err := none, uid := some uid, channel := some r.Channel,
    payload := if withPayload then some r.Payload else none,
    payload_size := some r.Payload.utf8ByteSize, msg := m }

/-! ## Handlers -/

def setIndex (w : World) (v : Int) : World :=
  { w with Metrics := { w.Metrics with Index := v } }

def setPut (w : World) (v : Int) : World :=
  { w with Metrics := { w.Metrics with Put := v } }

def setErrors (w : World) (v : Int) : World :=
  { w with Metrics := { w.Metrics with Errors := v } }

/-- Writing to the response: `fmt.Fprintf(rw, ...)` appends the formatted
text to what the response already holds. -/
def Fprintf (rw : String) (text : String) : String := rw ++ text

/-- The handler `handlerIndex` (main.go 144-147). -/
def handlerIndex (w : World) : Outcome :=
  { world := setIndex w (AddInt32 w.Metrics.Index 1),
    status := StatusOK,
    body := Fprintf ""
      (EscapeString ApplicationDescription ++ " v" ++ EscapeString BuildVersion ++ "\n"),
    calls := [],
    log := [] }

/-- The handler `handlerMetrics` (main.go 149-170). The values are formatted
with `%v`: a string as it is, an integer in decimal. -/
def handlerMetrics (w : World) : Outcome :=
  let rw := Fprintf "" "# TYPE taskq_publisher_channel_len counter\n"
  let rw := Fprintf rw "# HELP Last checked Redis channel length\n"
  let rw := w.Metrics.WatchedChannels.foldl
    (fun rw e => Fprintf rw
      ("taskq_publisher_channel_len\x7bchannel=\"" ++ e.1 ++ "\"\x7d " ++ toString e.2 ++ "\n")) rw
  let rw := Fprintf rw "# TYPE taskq_publisher_requests counter\n"
  let rw := Fprintf rw "# HELP Number of the requests to the TaskQ Publisher by type\n"
  let rw := Fprintf rw ("taskq_publisher_requests\x7bmethod=\"put\"\x7d " ++ toString w.Metrics.Put ++ "\n")
  let rw := Fprintf rw "# TYPE taskq_publisher_errors counter\n"
  let rw := Fprintf rw "# HELP Number of the raised errors\n"
  let rw := Fprintf rw ("taskq_publisher_errors " ++ toString w.Metrics.Errors ++ "\n")
  let rw := Fprintf rw "# TYPE taskq_publisher_index counter\n"
  let rw := Fprintf rw "# HELP Number of the requests to /\n"
  let rw := Fprintf rw ("taskq_publisher_index " ++ toString w.Metrics.Index ++ "\n")
  { world := w,
    status := StatusOK,
    body := rw,
    calls := [],
    log := [] }

/-- The handler `handlerPut` (main.go 172-236). `decode` is
`JSONDecoder.Decode`, `nextID` the result of `flake.NextID()`, `rpushErr` the
error of `rdb.RPush`; only the collaborators actually reached are consulted. -/
def handlerPut (decode : String → Except String RedisRPushRequestStruct)
    (nextID : Except String Nat) (rpushErr : Option String)
    (req : Request) (w : World) : Outcome :=
  let log0 := [plainEvent Level.info ("Processing incoming request " ++ req.URL)]
  let w1 := setPut w (AddInt32 w.Metrics.Put 1)
  let log1 := log0 ++ [plainEvent Level.debug "Processing request data"]
  match decode req.Body with
  | Except.error e =>
    { world := setErrors w1 (AddInt32 w1.Metrics.Errors 1),
      status := StatusInternalServerError,
      body := "",
      calls := [Call.Decode req.Body],
      log := log1 ++ [errEvent e "Error while JSON decoding the API request"] }
  | Except.ok r =>
    match nextID with
    | Except.error e =>
      { world := setErrors w1 (AddInt32 w1.Metrics.Errors 1),
        status := StatusInternalServerError,
        body := "",
        calls := [Call.Decode req.Body, Call.NextID],
        log := log1 ++ [errEvent e "flake.NextID() failed"] }
    | Except.ok uid =>
      let log2 := log1 ++ [publishEvent Level.debug uid r true "Publishing message",
                           publishEvent Level.info uid r false "Publishing message"]
      let calls2 := [Call.Decode req.Body, Call.NextID, Call.RPush r.Channel r.Payload]
      let w2 : World := { w1 with store := RPush rpushErr w1.store r.Channel r.Payload }
      match rpushErr with
      | some e =>
        { world := setErrors w2 (AddInt32 w2.Metrics.Errors 1),
          status := StatusInternalServerError,
          body := "",
          calls := calls2,
          log := log2 ++ [errEvent e "Couldn't publish message"] }
      | none =>
        { world := w2,
          status := StatusOK,
          body := "",
          calls := calls2,
          log := log2 ++ [publishEvent Level.info uid r false "Published message successfully"] }

/-! ## The process as a sequence of requests -/

/-- One request served by the process, with the answers its collaborators
give during that request. -/
inductive Req where
  | index
  | metrics
  | put (req : Request) (nextID : Except String Nat) (rpushErr : Option String)

/-- The routing of `main` (main.go 303-305). -/
def serve (decode : String → Except String RedisRPushRequestStruct)
    (r : Req) (w : World) : Outcome :=
  match r with
  | Req.index => handlerIndex w
  | Req.metrics => handlerMetrics w
  | Req.put req nextID rpushErr => handlerPut decode nextID rpushErr req w

/-- The world after serving the requests one after the other. -/
def run (decode : String → Except String RedisRPushRequestStruct) :
    List Req → World → World
  | [], w => w
  | r :: rs, w => run decode rs (serve decode r w).world

/-- The state at process start (main.go 57-68): all counters zero, both maps
empty. The start time and the contents of the Redis server are given. -/
def initWorld (started : Nat) (store : String → List String) : World :=
  { Metrics := { Index := 0, Warnings := 0, Errors := 0, Success := 0, Put := 0,
                 Started := started, WatchedChannels := [] },
    watchedRedisChannels := [],
    store := store }

def isPut : Req → Bool
  | Req.put _ _ _ => true
  | _ => false

/-- The number of `/put` requests in a sequence. -/
def countPut (rs : List Req) : Nat := (rs.filter isPut).length

/-- The request fails at one of the three stages of `handlerPut`. -/
def putFails (decode : String → Except String RedisRPushRequestStruct)
    (nextID : Except String Nat) (rpushErr : Option String) (req : Request) : Bool :=
  match decode req.Body with
  | Except.error _ => true
  | Except.ok _ =>
    match nextID with
    | Except.error _ => true
    | Except.ok _ => rpushErr.isSome

/-! ## Text lines -/

/-- Split a text at every newline character. -/
def splitLines : List Char → List (List Char)
  | [] => [[]]
  | c :: cs =>
    if c = '\n' then [] :: splitLines cs
    else
      match splitLines cs with
      | [] => [[c]]
      | l :: ls => (c :: l) :: ls

/-- The lines of a text. -/
def lines (s : String) : List String := (splitLines s.data).map String.mk

/-- A line of the exposition format that carries a sample: not empty and not
a `#` comment. -/
def isSample (l : String) : Bool :=
  match l.data with
  | [] => false
  | c :: _ => c != '#'

/-- The sample lines of a text, in order. -/
def sampleLines (s : String) : List String := (lines s).filter isSample

/-! ## The sample lines the exposition format is expected to hold -/

/-- The sample line of one entry `X -> L` of `Metrics.WatchedChannels`. -/
def channelLine (e : String × Int) : String :=
  "taskq_publisher_channel_len\x7bchannel=\"" ++ e.1 ++ "\"\x7d " ++ toString e.2

def putLine (m : MetricsStruct) : String :=
  "taskq_publisher_requests\x7bmethod=\"put\"\x7d " ++ toString m.Put

def errorsLine (m : MetricsStruct) : String :=
  "taskq_publisher_errors " ++ toString m.Errors

def indexLine (m : MetricsStruct) : String :=
  "taskq_publisher_index " ++ toString m.Index

/-- The line is a sample of the family `taskq_publisher_channel_len`. -/
def isChannelLenLine (l : String) : Bool :=
  "taskq_publisher_channel_len".data.isPrefixOf l.data

/-- The text contains no newline character. -/
def noNewline (s : String) : Prop := '\n' ∉ s.data

instance (s : String) : Decidable (noNewline s) := by
  unfold noNewline; infer_instance

/-- A decoder for examples: it accepts exactly the body of scenario A. -/
def exampleDecode (body : String) : Except String RedisRPushRequestStruct :=
  if body = "\x7b\"channel\":\"jobs\",\"payload\":\x7b\"x\":1\x7d\x7d" then
    Except.ok { Channel := "jobs", Payload := "\x7b\"x\":1\x7d" }
  else Except.error "invalid character"

/-- The request of scenario A. -/
def scenarioA : Request :=
  { URL := "/put", Body := "\x7b\"channel\":\"jobs\",\"payload\":\x7b\"x\":1\x7d\x7d" }

/-- The request of scenario B. -/
def scenarioB : Request := { URL := "/put", Body := "not json" }

/-- A Redis server that holds no list. -/
def emptyStore : String → List String := fun _ => []

/-- A Redis server whose list `jobs` holds two elements. -/
def jobsStore : String → List String :=
  fun k => if k = "jobs" then ["first", "second"] else []

/-- A world in which all three counters that the handlers increment hold the
largest `int32`. -/
def saturatedWorld : World :=
  { Metrics := { Index := 2147483647, Warnings := 0, Errors := 2147483647, Success := 0,
                 Put := 2147483647, Started := 0, WatchedChannels := [] },
    watchedRedisChannels := [],
    store := emptyStore }

/-- A world whose map `Metrics.WatchedChannels` holds two channels. -/
def watchedWorld : World :=
  { Metrics := { Index := 4, Warnings := 0, Errors := 2, Success := 0, Put := 9,
                 Started := 0, WatchedChannels := [("jobs", 3), ("mail", 0)] },
    watchedRedisChannels := [("jobs", 10), ("mail", 11)],
    store := emptyStore }

/-- A sequence of requests: scenario A, a push that the store refuses, a
request to `/`, and scenario B. -/
def exampleRun : List Req :=
  [Req.put scenarioA (Except.ok 1) none,
   Req.put scenarioA (Except.ok 2) (some "connection refused"),
   Req.index,
   Req.put scenarioB (Except.ok 3) none]

/-! ## Lemmas on the counters -/

theorem AddInt32_one (v : Int) (hlo : MinInt32 ≤ v) (hhi : v < MaxInt32) :
    AddInt32 v 1 = v + 1 := by
  unfold MinInt32 at hlo
  unfold MaxInt32 at hhi
  unfold AddInt32 wrapInt32
  omega

theorem AddInt32_one_cases (v : Int) (h : isInt32 v) :
    AddInt32 v 1 = v + 1 ∨ (v = MaxInt32 ∧ AddInt32 v 1 = MinInt32) := by
  unfold isInt32 MinInt32 MaxInt32 at h
  unfold AddInt32 wrapInt32 MinInt32 MaxInt32
  omega

section Handlers

variable (decode : String → Except String RedisRPushRequestStruct)
  (nextID : Except String Nat) (rpushErr : Option String) (req : Request) (w : World)

theorem handlerPut_Put :
    (handlerPut decode nextID rpushErr req w).world.Metrics.Put = AddInt32 w.Metrics.Put 1 := by
  unfold handlerPut
  cases decode req.Body <;> cases nextID <;> cases rpushErr <;> rfl

theorem handlerPut_Success :
    (handlerPut decode nextID rpushErr req w).world.Metrics.Success = w.Metrics.Success := by
  unfold handlerPut
  cases decode req.Body <;> cases nextID <;> cases rpushErr <;> rfl

theorem handlerPut_Errors :
    (handlerPut decode nextID rpushErr req w).world.Metrics.Errors =
      if putFails decode nextID rpushErr req then AddInt32 w.Metrics.Errors 1
      else w.Metrics.Errors := by
  unfold handlerPut putFails
  cases decode req.Body <;> cases nextID <;> cases rpushErr <;> rfl

theorem handlerPut_status :
    (handlerPut decode nextID rpushErr req w).status =
      if putFails decode nextID rpushErr req then StatusInternalServerError
      else StatusOK := by
  unfold handlerPut putFails
  cases decode req.Body <;> cases nextID <;> cases rpushErr <;> rfl

theorem handlerPut_frame :
    (handlerPut decode nextID rpushErr req w).world.Metrics.Index = w.Metrics.Index ∧
    (handlerPut decode nextID rpushErr req w).world.Metrics.Warnings = w.Metrics.Warnings ∧
    (handlerPut decode nextID rpushErr req w).world.Metrics.Started = w.Metrics.Started ∧
    (handlerPut decode nextID rpushErr req w).world.Metrics.WatchedChannels
      = w.Metrics.WatchedChannels ∧
    (handlerPut decode nextID rpushErr req w).world.watchedRedisChannels
      = w.watchedRedisChannels := by
  unfold handlerPut
  cases decode req.Body <;> cases nextID <;> cases rpushErr <;>
    exact ⟨rfl, rfl, rfl, rfl, rfl⟩

/-! ## The process as a whole -/

theorem serve_Put (r : Req) :
    (serve decode r w).world.Metrics.Put =
      if isPut r then AddInt32 w.Metrics.Put 1 else w.Metrics.Put := by
  cases r with
  | index => rfl
  | metrics => rfl
  | put req nextID rpushErr => exact handlerPut_Put decode nextID rpushErr req w

theorem serve_Success (r : Req) :
    (serve decode r w).world.Metrics.Success = w.Metrics.Success := by
  cases r with
  | index => rfl
  | metrics => rfl
  | put req nextID rpushErr => exact handlerPut_Success decode nextID rpushErr req w

theorem serve_maps (r : Req) :
    (serve decode r w).world.Metrics.WatchedChannels = w.Metrics.WatchedChannels ∧
    (serve decode r w).world.watchedRedisChannels = w.watchedRedisChannels := by
  cases r with
  | index => exact ⟨rfl, rfl⟩
  | metrics => exact ⟨rfl, rfl⟩
  | put req nextID rpushErr =>
    have h := handlerPut_frame decode nextID rpushErr req w
    exact ⟨h.2.2.2.1, h.2.2.2.2⟩

theorem countPut_cons (r : Req) (rs : List Req) :
    countPut (r :: rs) = (if isPut r then 1 else 0) + countPut rs := by
  unfold countPut
  cases h : isPut r <;> simp [List.filter, h]
  omega

theorem run_Put (rs : List Req) : ∀ w : World, 0 ≤ w.Metrics.Put →
    w.Metrics.Put + countPut rs ≤ MaxInt32 →
    (run decode rs w).Metrics.Put = w.Metrics.Put + countPut rs := by
  induction rs with
  | nil => intro w _ _; simp [run, countPut]
  | cons r rs ih =>
    intro w h0 hmax
    rw [countPut_cons] at hmax ⊢
    have hs := serve_Put decode w r
    cases hr : isPut r with
    | false =>
      simp only [hr] at hs hmax ⊢
      simp only [Bool.false_eq_true, if_false] at hs hmax ⊢
      have := ih (serve decode r w).world (by rw [hs]; exact h0) (by rw [hs]; omega)
      simp only [run]
      rw [this, hs]
      omega
    | true =>
      simp only [hr, if_true] at hs hmax ⊢
      have h1 : AddInt32 w.Metrics.Put 1 = w.Metrics.Put + 1 :=
        AddInt32_one _ (by unfold MinInt32; omega) (by omega)
      rw [h1] at hs
      have := ih (serve decode r w).world (by rw [hs]; omega)
        (by rw [hs]; push_cast at hmax ⊢; omega)
      simp only [run]
      rw [this, hs]
      push_cast
      omega

theorem run_Success (rs : List Req) : ∀ w : World,
    (run decode rs w).Metrics.Success = w.Metrics.Success := by
  induction rs with
  | nil => intro w; rfl
  | cons r rs ih =>
    intro w
    simp only [run]
    rw [ih, serve_Success]

theorem run_maps (rs : List Req) : ∀ w : World,
    (run decode rs w).Metrics.WatchedChannels = w.Metrics.WatchedChannels ∧
    (run decode rs w).watchedRedisChannels = w.watchedRedisChannels := by
  induction rs with
  | nil => intro w; exact ⟨rfl, rfl⟩
  | cons r rs ih =>
    intro w
    simp only [run]
    rw [(ih _).1, (ih _).2]
    exact serve_maps decode w r

theorem handlerPut_calls :
    (handlerPut decode nextID rpushErr req w).calls =
      match decode req.Body with
      | Except.error _ => [Call.Decode req.Body]
      | Except.ok r =>
        match nextID with
        | Except.error _ => [Call.Decode req.Body, Call.NextID]
        | Except.ok _ => [Call.Decode req.Body, Call.NextID, Call.RPush r.Channel r.Payload] := by
  unfold handlerPut
  cases decode req.Body <;> cases nextID <;> cases rpushErr <;> rfl

theorem handlerPut_store :
    (handlerPut decode nextID rpushErr req w).world.store =
      match decode req.Body with
      | Except.error _ => w.store
      | Except.ok r =>
        match nextID with
        | Except.error _ => w.store
        | Except.ok _ => RPush rpushErr w.store r.Channel r.Payload := by
  unfold handlerPut
  cases decode req.Body <;> cases nextID <;> cases rpushErr <;> rfl


theorem serve_Index (r : Req) :
    (serve decode r w).world.Metrics.Index = w.Metrics.Index ∨
    (serve decode r w).world.Metrics.Index = AddInt32 w.Metrics.Index 1 := by
  cases r with
  | index => exact Or.inr rfl
  | metrics => exact Or.inl rfl
  | put req nextID rpushErr =>
    exact Or.inl (handlerPut_frame decode nextID rpushErr req w).1

theorem serve_Errors (r : Req) :
    (serve decode r w).world.Metrics.Errors = w.Metrics.Errors ∨
    (serve decode r w).world.Metrics.Errors = AddInt32 w.Metrics.Errors 1 := by
  cases r with
  | index => exact Or.inl rfl
  | metrics => exact Or.inl rfl
  | put req nextID rpushErr =>
    have h := handlerPut_Errors decode nextID rpushErr req w
    cases hf : putFails decode nextID rpushErr req with
    | false => left; simpa [serve, hf] using h
    | true => right; simpa [serve, hf] using h

theorem serve_Warnings (r : Req) :
    (serve decode r w).world.Metrics.Warnings = w.Metrics.Warnings := by
  cases r with
  | index => rfl
  | metrics => rfl
  | put req nextID rpushErr => exact (handlerPut_frame decode nextID rpushErr req w).2.1

theorem step_monotone_or_wraps (v v' : Int) (hv : isInt32 v)
    (h : v' = v ∨ v' = AddInt32 v 1) :
    v ≤ v' ∨ (v = MaxInt32 ∧ v' = MinInt32) := by
  rcases h with h | h
  · left; omega
  · rcases AddInt32_one_cases v hv with h1 | h1
    · left; omega
    · right; exact ⟨h1.1, by rw [h, h1.2]⟩

end Handlers

/-! ## Lines of a text -/

theorem splitLines_line (l rest : List Char) (h : '\n' ∉ l) :
    splitLines (l ++ '\n' :: rest) = l :: splitLines rest := by
  induction l with
  | nil => simp [splitLines]
  | cons c cs ih =>
    have hc : c ≠ '\n' := fun hc => h (by simp [hc])
    have hcs : '\n' ∉ cs := fun hcs => h (List.mem_cons_of_mem _ hcs)
    show splitLines (c :: (cs ++ '\n' :: rest)) = (c :: cs) :: splitLines rest
    rw [splitLines, if_neg hc, ih hcs]

theorem lines_line (l rest : String) (h : noNewline l) :
    lines (l ++ "\n" ++ rest) = l :: lines rest := by
  unfold lines
  have hd : (l ++ "\n" ++ rest).data = l.data ++ '\n' :: rest.data := by
    simp [String.data_append]
  rw [hd, splitLines_line _ _ h]
  rfl

theorem lines_empty : lines "" = [""] := rfl

/-! ## Decimal numerals hold no newline -/

theorem digitChar_ne_newline : ∀ d : Nat, d < 10 → Nat.digitChar d ≠ '\n' := by
  decide

theorem toDigitsCore_no_newline (fuel : Nat) : ∀ (n : Nat) (ds : List Char),
    '\n' ∉ ds → '\n' ∉ Nat.toDigitsCore 10 fuel n ds := by
  induction fuel with
  | zero => intro n ds h; simpa [Nat.toDigitsCore] using h
  | succ f ih =>
    intro n ds h
    have hd : '\n' ∉ Nat.digitChar (n % 10) :: ds := by
      intro hm
      rcases List.mem_cons.1 hm with h1 | h1
      · exact digitChar_ne_newline _ (Nat.mod_lt _ (by decide)) h1.symm
      · exact h h1
    simp only [Nat.toDigitsCore]
    split
    · exact hd
    · exact ih _ _ hd

theorem noNewline_natRepr (n : Nat) : noNewline (toString n) := by
  show '\n' ∉ (Nat.repr n).data
  unfold Nat.repr Nat.toDigits
  exact toDigitsCore_no_newline _ _ _ (by simp)

theorem noNewline_append (a b : String) (ha : noNewline a) (hb : noNewline b) :
    noNewline (a ++ b) := by
  unfold noNewline at *
  simp [String.data_append, ha, hb]

theorem noNewline_intRepr (v : Int) : noNewline (toString v) := by
  cases v with
  | ofNat n => exact noNewline_natRepr n
  | negSucc n =>
    show noNewline ("-" ++ toString (Nat.succ n))
    exact noNewline_append _ _ (by decide) (noNewline_natRepr _)

theorem noNewline_channelLine (e : String × Int) (h : noNewline e.1) :
    noNewline (channelLine e) := by
  unfold channelLine
  exact noNewline_append _ _ (noNewline_append _ _ (noNewline_append _ _ (by decide) h)
    (by decide)) (noNewline_intRepr _)

theorem noNewline_putLine (m : MetricsStruct) : noNewline (putLine m) :=
  noNewline_append _ _ (by decide) (noNewline_intRepr _)

theorem noNewline_errorsLine (m : MetricsStruct) : noNewline (errorsLine m) :=
  noNewline_append _ _ (by decide) (noNewline_intRepr _)

theorem noNewline_indexLine (m : MetricsStruct) : noNewline (indexLine m) :=
  noNewline_append _ _ (by decide) (noNewline_intRepr _)

/-! ## Sample lines -/

theorem isSample_append (a b : String) (h : isSample a = true) : isSample (a ++ b) = true := by
  obtain ⟨l⟩ := a
  cases l with
  | nil => simp [isSample] at h
  | cons c cs =>
    simp only [isSample] at h ⊢
    simpa [String.data_append] using h

theorem isSample_channelLine (e : String × Int) : isSample (channelLine e) = true :=
  isSample_append _ _ (isSample_append _ _ (isSample_append _ _ (by decide)))

theorem isSample_putLine (m : MetricsStruct) : isSample (putLine m) = true :=
  isSample_append _ _ (by decide)

theorem isSample_errorsLine (m : MetricsStruct) : isSample (errorsLine m) = true :=
  isSample_append _ _ (by decide)

theorem isSample_indexLine (m : MetricsStruct) : isSample (indexLine m) = true :=
  isSample_append _ _ (by decide)

/-! ## The body written by `handlerMetrics` -/

theorem foldl_Fprintf (g : String × Int → String) (es : List (String × Int)) :
    ∀ rw : String, es.foldl (fun rw e => Fprintf rw (g e)) rw
      = rw ++ es.foldr (fun e acc => g e ++ acc) "" := by
  induction es with
  | nil => intro rw; simp
  | cons e es ih =>
    intro rw
    simp only [List.foldl_cons, List.foldr_cons]
    rw [ih]
    simp only [Fprintf, String.append_assoc]

theorem lines_channels (es : List (String × Int)) (rest : String)
    (h : ∀ e ∈ es, noNewline e.1) :
    lines (es.foldr (fun e acc => (channelLine e ++ "\n") ++ acc) "" ++ rest)
      = es.map channelLine ++ lines rest := by
  induction es with
  | nil => simp
  | cons e es ih =>
    have he : noNewline (channelLine e) :=
      noNewline_channelLine e (h e (List.mem_cons_self _ _))
    have hes : ∀ x ∈ es, noNewline x.1 := fun x hx => h x (List.mem_cons_of_mem _ hx)
    simp only [List.foldr_cons, List.map_cons, List.cons_append]
    rw [String.append_assoc, lines_line _ _ he, ih hes]

theorem handlerMetrics_body (w : World) :
    (handlerMetrics w).body =
      "# TYPE taskq_publisher_channel_len counter" ++ "\n" ++
      ("# HELP Last checked Redis channel length" ++ "\n" ++
      (w.Metrics.WatchedChannels.foldr (fun e acc => (channelLine e ++ "\n") ++ acc) "" ++
      ("# TYPE taskq_publisher_requests counter" ++ "\n" ++
      ("# HELP Number of the requests to the TaskQ Publisher by type" ++ "\n" ++
      (putLine w.Metrics ++ "\n" ++
      ("# TYPE taskq_publisher_errors counter" ++ "\n" ++
      ("# HELP Number of the raised errors" ++ "\n" ++
      (errorsLine w.Metrics ++ "\n" ++
      ("# TYPE taskq_publisher_index counter" ++ "\n" ++
      ("# HELP Number of the requests to /" ++ "\n" ++
      (indexLine w.Metrics ++ "\n" ++ ""))))))))))) := by
  have h1 : "# TYPE taskq_publisher_channel_len counter\n"
      = "# TYPE taskq_publisher_channel_len counter" ++ "\n" := by decide
  have h2 : "# HELP Last checked Redis channel length\n"
      = "# HELP Last checked Redis channel length" ++ "\n" := by decide
  have h3 : "# TYPE taskq_publisher_requests counter\n"
      = "# TYPE taskq_publisher_requests counter" ++ "\n" := by decide
  have h4 : "# HELP Number of the requests to the TaskQ Publisher by type\n"
      = "# HELP Number of the requests to the TaskQ Publisher by type" ++ "\n" := by decide
  have h5 : "# TYPE taskq_publisher_errors counter\n"
      = "# TYPE taskq_publisher_errors counter" ++ "\n" := by decide
  have h6 : "# HELP Number of the raised errors\n"
      = "# HELP Number of the raised errors" ++ "\n" := by decide
  have h7 : "# TYPE taskq_publisher_index counter\n"
      = "# TYPE taskq_publisher_index counter" ++ "\n" := by decide
  have h8 : "# HELP Number of the requests to /\n"
      = "# HELP Number of the requests to /" ++ "\n" := by decide
  have hf := foldl_Fprintf
    (fun e => "taskq_publisher_channel_len\x7bchannel=\"" ++ e.1 ++ "\"\x7d " ++ toString e.2 ++ "\n")
    w.Metrics.WatchedChannels
  simp only [handlerMetrics, hf]
  simp only [Fprintf, String.empty_append, String.append_empty]
  rw [h1, h2, h3, h4, h5, h6, h7, h8]
  simp only [String.append_assoc, putLine, errorsLine, indexLine, channelLine,
    String.append_empty]

theorem handlerMetrics_lines (w : World) (h : ∀ e ∈ w.Metrics.WatchedChannels, noNewline e.1) :
    lines (handlerMetrics w).body =
      ["# TYPE taskq_publisher_channel_len counter",
       "# HELP Last checked Redis channel length"] ++
      w.Metrics.WatchedChannels.map channelLine ++
      ["# TYPE taskq_publisher_requests counter",
       "# HELP Number of the requests to the TaskQ Publisher by type",
       putLine w.Metrics,
       "# TYPE taskq_publisher_errors counter",
       "# HELP Number of the raised errors",
       errorsLine w.Metrics,
       "# TYPE taskq_publisher_index counter",
       "# HELP Number of the requests to /",
       indexLine w.Metrics,
       ""] := by
  rw [handlerMetrics_body]
  rw [lines_line _ _ (by decide), lines_line _ _ (by decide), lines_channels _ _ h,
    lines_line _ _ (by decide), lines_line _ _ (by decide),
    lines_line _ _ (noNewline_putLine _),
    lines_line _ _ (by decide), lines_line _ _ (by decide),
    lines_line _ _ (noNewline_errorsLine _),
    lines_line _ _ (by decide), lines_line _ _ (by decide),
    lines_line _ _ (noNewline_indexLine _), lines_empty]
  simp

theorem filter_isSample_channelLines (es : List (String × Int)) :
    (es.map channelLine).filter isSample = es.map channelLine := by
  rw [List.filter_eq_self]
  intro l hl
  obtain ⟨e, _, rfl⟩ := List.mem_map.1 hl
  exact isSample_channelLine e

theorem handlerMetrics_sampleLines (w : World)
    (h : ∀ e ∈ w.Metrics.WatchedChannels, noNewline e.1) :
    sampleLines (handlerMetrics w).body =
      w.Metrics.WatchedChannels.map channelLine ++
        [putLine w.Metrics, errorsLine w.Metrics, indexLine w.Metrics] := by
  unfold sampleLines
  rw [handlerMetrics_lines w h]
  have c1 : isSample "# TYPE taskq_publisher_channel_len counter" = false := by decide
  have c2 : isSample "# HELP Last checked Redis channel length" = false := by decide
  have c3 : isSample "# TYPE taskq_publisher_requests counter" = false := by decide
  have c4 : isSample "# HELP Number of the requests to the TaskQ Publisher by type" = false := by
    decide
  have c5 : isSample "# TYPE taskq_publisher_errors counter" = false := by decide
  have c6 : isSample "# HELP Number of the raised errors" = false := by decide
  have c7 : isSample "# TYPE taskq_publisher_index counter" = false := by decide
  have c8 : isSample "# HELP Number of the requests to /" = false := by decide
  have c9 : isSample "" = false := by decide
  simp only [List.filter_append, List.filter_cons, List.filter_nil, c1, c2, c3, c4, c5, c6, c7,
    c8, c9, isSample_putLine, isSample_errorsLine, isSample_indexLine,
    filter_isSample_channelLines, if_true, Bool.false_eq_true, if_false, List.nil_append]

theorem splitLines_ne_nil (l : List Char) : splitLines l ≠ [] := by
  induction l with
  | nil => simp [splitLines]
  | cons c cs ih =>
    rw [splitLines]
    split
    · simp
    · split <;> simp

theorem splitLines_append (a rest : List Char) :
    splitLines (a ++ '\n' :: rest) = splitLines a ++ splitLines rest := by
  induction a with
  | nil => simp [splitLines]
  | cons c cs ih =>
    show splitLines (c :: (cs ++ '\n' :: rest)) = splitLines (c :: cs) ++ splitLines rest
    rw [splitLines, splitLines, ih]
    by_cases hc : c = '\n'
    · simp [hc]
    · rw [if_neg hc, if_neg hc]
      cases hs : splitLines cs with
      | nil => exact absurd hs (splitLines_ne_nil cs)
      | cons l ls => rfl

theorem lines_append (a rest : String) :
    lines (a ++ "\n" ++ rest) = lines a ++ lines rest := by
  unfold lines
  have hd : (a ++ "\n" ++ rest).data = a.data ++ '\n' :: rest.data := by
    simp [String.data_append]
  rw [hd, splitLines_append, List.map_append]

theorem mem_lines_after_channels (es : List (String × Int)) (rest l : String)
    (h : l ∈ lines rest) :
    l ∈ lines (es.foldr (fun e acc => (channelLine e ++ "\n") ++ acc) "" ++ rest) := by
  induction es with
  | nil => simpa using h
  | cons e es ih =>
    simp only [List.foldr_cons]
    rw [String.append_assoc, lines_append]
    exact List.mem_append_right _ ih

theorem handlerMetrics_counter_lines (w : World) :
    putLine w.Metrics ∈ sampleLines (handlerMetrics w).body ∧
    errorsLine w.Metrics ∈ sampleLines (handlerMetrics w).body ∧
    indexLine w.Metrics ∈ sampleLines (handlerMetrics w).body := by
  have hl : ∀ l, l ∈ [putLine w.Metrics, errorsLine w.Metrics, indexLine w.Metrics] →
      l ∈ lines (handlerMetrics w).body := by
    intro l hl
    rw [handlerMetrics_body, lines_line _ _ (by decide), lines_line _ _ (by decide)]
    apply List.mem_cons_of_mem
    apply List.mem_cons_of_mem
    apply mem_lines_after_channels
    rw [lines_line _ _ (by decide), lines_line _ _ (by decide),
      lines_line _ _ (noNewline_putLine _),
      lines_line _ _ (by decide), lines_line _ _ (by decide),
      lines_line _ _ (noNewline_errorsLine _),
      lines_line _ _ (by decide), lines_line _ _ (by decide),
      lines_line _ _ (noNewline_indexLine _)]
    simp only [List.mem_cons, List.mem_singleton, List.mem_nil_iff, or_false] at hl ⊢
    rcases hl with rfl | rfl | rfl <;> simp
  unfold sampleLines
  refine ⟨List.mem_filter.2 ⟨hl _ (by simp), isSample_putLine _⟩,
    List.mem_filter.2 ⟨hl _ (by simp), isSample_errorsLine _⟩,
    List.mem_filter.2 ⟨hl _ (by simp), isSample_indexLine _⟩⟩

theorem not_isPrefixOf_append (p l r : List Char) (n : Nat)
    (hp : n ≤ p.length) (hl : n ≤ l.length) (hne : p.take n ≠ l.take n) :
    p.isPrefixOf (l ++ r) = false := by
  cases hpre : p.isPrefixOf (l ++ r) with
  | false => rfl
  | true =>
    exfalso
    obtain ⟨t, ht⟩ := List.isPrefixOf_iff_prefix.1 hpre
    apply hne
    have h1 : (l ++ r).take n = l.take n := List.take_append_of_le_length hl
    have h2 : (p ++ t).take n = p.take n := List.take_append_of_le_length hp
    rw [← h1, ← ht, h2]

theorem putLine_not_channelLen (m : MetricsStruct) : isChannelLenLine (putLine m) = false := by
  unfold isChannelLenLine putLine
  rw [String.data_append]
  exact not_isPrefixOf_append _ _ _ 17 (by decide) (by decide) (by decide)

theorem errorsLine_not_channelLen (m : MetricsStruct) :
    isChannelLenLine (errorsLine m) = false := by
  unfold isChannelLenLine errorsLine
  rw [String.data_append]
  exact not_isPrefixOf_append _ _ _ 17 (by decide) (by decide) (by decide)

theorem indexLine_not_channelLen (m : MetricsStruct) :
    isChannelLenLine (indexLine m) = false := by
  unfold isChannelLenLine indexLine
  rw [String.data_append]
  exact not_isPrefixOf_append _ _ _ 17 (by decide) (by decide) (by decide)

/-! ## Properties of the publish pipeline -/

/-- C1, as the code has it: when `Metrics.Put` is an `int32` value below
2147483647, one call of `handlerPut` increases it by exactly 1 whatever the
outcome of decoding, of `flake.NextID` and of `rdb.RPush`; and after a
sequence of requests with `n ≤ 2147483647` calls of `handlerPut` from the
initial state, `Metrics.Put = n`. -/
theorem handlerPut_counts_attempt
    (decode : String → Except String RedisRPushRequestStruct)
    (nextID : Except String Nat) (rpushErr : Option String) (req : Request) (w : World)
    (rs : List Req) (started : Nat) (store : String → List String)
    (hlo : MinInt32 ≤ w.Metrics.Put) (hhi : w.Metrics.Put < MaxInt32)
    (hn : (countPut rs : Int) ≤ MaxInt32) :
    (handlerPut decode nextID rpushErr req w).world.Metrics.Put = w.Metrics.Put + 1 ∧
    (run decode rs (initWorld started store)).Metrics.Put = countPut rs := by
  constructor
  · rw [handlerPut_Put, AddInt32_one _ hlo hhi]
  · have h := run_Put decode rs (initWorld started store) (by simp [initWorld])
      (by simpa [initWorld] using hn)
    simpa [initWorld] using h

/-- C1, witness: a decode failure from the initial state, and a sequence of
four requests holding two calls of `handlerPut`. -/
theorem handlerPut_counts_attempt_witness :
    (MinInt32 ≤ (initWorld 0 emptyStore).Metrics.Put ∧
      (initWorld 0 emptyStore).Metrics.Put < MaxInt32 ∧
      (countPut [Req.put scenarioA (Except.ok 1) none, Req.index,
        Req.put scenarioB (Except.ok 2) none, Req.metrics] : Int) ≤ MaxInt32) ∧
    ((handlerPut exampleDecode (Except.ok 1) none scenarioB
        (initWorld 0 emptyStore)).world.Metrics.Put = (initWorld 0 emptyStore).Metrics.Put + 1 ∧
      (run exampleDecode [Req.put scenarioA (Except.ok 1) none, Req.index,
        Req.put scenarioB (Except.ok 2) none, Req.metrics]
        (initWorld 0 emptyStore)).Metrics.Put =
        countPut [Req.put scenarioA (Except.ok 1) none, Req.index,
          Req.put scenarioB (Except.ok 2) none, Req.metrics]) :=
  ⟨⟨by decide, by decide, by decide⟩,
    handlerPut_counts_attempt exampleDecode (Except.ok 1) none scenarioB
      (initWorld 0 emptyStore) _ 0 emptyStore (by decide) (by decide) (by decide)⟩

/-- C1, counterexample: with `Metrics.Put = 2147483647`, a value the `int32`
field can hold, one call of `handlerPut` leaves `Metrics.Put = -2147483648`,
which is not the value before plus 1. -/
theorem handlerPut_Put_wraps :
    isInt32 saturatedWorld.Metrics.Put ∧
    (handlerPut exampleDecode (Except.ok 1) none scenarioA saturatedWorld).world.Metrics.Put
      = -2147483648 ∧
    (handlerPut exampleDecode (Except.ok 1) none scenarioA saturatedWorld).world.Metrics.Put
      ≠ saturatedWorld.Metrics.Put + 1 := by
  decide

/-- C2, as the code has it: a call of `handlerPut` in which the body decodes,
`flake.NextID` succeeds and `rdb.RPush` returns no error returns status 200
and leaves `Metrics.Success` as it was; and after any sequence of requests
from the initial state `Metrics.Success = 0`. -/
theorem handlerPut_success_keeps_Success
    (decode : String → Except String RedisRPushRequestStruct)
    (nextID : Except String Nat) (rpushErr : Option String) (req : Request) (w : World)
    (rs : List Req) (started : Nat) (store : String → List String)
    (hok : putFails decode nextID rpushErr req = false) :
    (handlerPut decode nextID rpushErr req w).status = StatusOK ∧
    (handlerPut decode nextID rpushErr req w).world.Metrics.Success = w.Metrics.Success ∧
    (run decode rs (initWorld started store)).Metrics.Success = 0 := by
  refine ⟨?_, handlerPut_Success decode nextID rpushErr req w, ?_⟩
  · rw [handlerPut_status, hok]; rfl
  · rw [run_Success]; rfl

/-- C2, witness: scenario A from the initial state, then three successful
pushes in a row. -/
theorem handlerPut_success_keeps_Success_witness :
    putFails exampleDecode (Except.ok 1) none scenarioA = false ∧
    ((handlerPut exampleDecode (Except.ok 1) none scenarioA
        (initWorld 0 emptyStore)).status = StatusOK ∧
      (handlerPut exampleDecode (Except.ok 1) none scenarioA
        (initWorld 0 emptyStore)).world.Metrics.Success = (initWorld 0 emptyStore).Metrics.Success ∧
      (run exampleDecode [Req.put scenarioA (Except.ok 1) none,
        Req.put scenarioA (Except.ok 2) none, Req.put scenarioA (Except.ok 3) none]
        (initWorld 0 emptyStore)).Metrics.Success = 0) :=
  ⟨by decide,
    handlerPut_success_keeps_Success exampleDecode (Except.ok 1) none scenarioA
      (initWorld 0 emptyStore) _ 0 emptyStore (by decide)⟩

/-- C2, counterexample: scenario A from the initial state decodes, gets an
identifier and is pushed without error, the status is 200, and
`Metrics.Success` is 0 after the call, not 1. -/
theorem handlerPut_Success_not_incremented :
    putFails exampleDecode (Except.ok 1) none scenarioA = false ∧
    (handlerPut exampleDecode (Except.ok 1) none scenarioA
      (initWorld 0 emptyStore)).status = 200 ∧
    (handlerPut exampleDecode (Except.ok 1) none scenarioA
      (initWorld 0 emptyStore)).world.Metrics.Success = 0 ∧
    (handlerPut exampleDecode (Except.ok 1) none scenarioA
      (initWorld 0 emptyStore)).world.Metrics.Success
      ≠ (initWorld 0 emptyStore).Metrics.Success + 1 := by
  decide

/-- C3, as the code has it: for every state, a call of `handlerPut` that
fails at one of its three stages answers 500 and leaves `Metrics.Success`
unchanged, and, when `Metrics.Errors` is an `int32` value below 2147483647,
increases `Metrics.Errors` by exactly 1; a call that fails at none of them
leaves `Metrics.Errors` unchanged. -/
theorem handlerPut_error_accounting
    (decode : String → Except String RedisRPushRequestStruct)
    (nextID : Except String Nat) (rpushErr : Option String) (req : Request) (w : World) :
    (putFails decode nextID rpushErr req = true →
      (handlerPut decode nextID rpushErr req w).status = StatusInternalServerError ∧
      (handlerPut decode nextID rpushErr req w).world.Metrics.Success = w.Metrics.Success ∧
      (isInt32 w.Metrics.Errors → w.Metrics.Errors < MaxInt32 →
        (handlerPut decode nextID rpushErr req w).world.Metrics.Errors
          = w.Metrics.Errors + 1)) ∧
    (putFails decode nextID rpushErr req = false →
      (handlerPut decode nextID rpushErr req w).world.Metrics.Errors = w.Metrics.Errors) := by
  constructor
  · intro hf
    refine ⟨?_, handlerPut_Success decode nextID rpushErr req w, ?_⟩
    · rw [handlerPut_status, hf]; rfl
    · intro hty hhi
      rw [handlerPut_Errors, hf, if_pos rfl, AddInt32_one _ hty.1 hhi]
  · intro hf
    rw [handlerPut_Errors, hf]; rfl

/-- C3, witness: from the initial state, a push that the store refuses
(scenario C) answers 500, counts one error and leaves `Success` alone; with
`Errors` at 2147483647 the same call still answers 500 and leaves `Success`
alone; and scenario A leaves `Errors` alone. -/
theorem handlerPut_error_accounting_witness :
    (isInt32 (initWorld 0 emptyStore).Metrics.Errors ∧
      (initWorld 0 emptyStore).Metrics.Errors < MaxInt32 ∧
      putFails exampleDecode (Except.ok 1) (some "connection refused") scenarioA = true ∧
      putFails exampleDecode (Except.ok 1) none scenarioA = false) ∧
    ((handlerPut exampleDecode (Except.ok 1) (some "connection refused") scenarioA
        (initWorld 0 emptyStore)).status = StatusInternalServerError ∧
      (handlerPut exampleDecode (Except.ok 1) (some "connection refused") scenarioA
        (initWorld 0 emptyStore)).world.Metrics.Success = (initWorld 0 emptyStore).Metrics.Success ∧
      (handlerPut exampleDecode (Except.ok 1) (some "connection refused") scenarioA
        (initWorld 0 emptyStore)).world.Metrics.Errors
          = (initWorld 0 emptyStore).Metrics.Errors + 1) ∧
    ((handlerPut exampleDecode (Except.ok 1) (some "connection refused") scenarioA
        saturatedWorld).status = StatusInternalServerError ∧
      (handlerPut exampleDecode (Except.ok 1) (some "connection refused") scenarioA
        saturatedWorld).world.Metrics.Success = saturatedWorld.Metrics.Success) ∧
    (handlerPut exampleDecode (Except.ok 1) none scenarioA
      (initWorld 0 emptyStore)).world.Metrics.Errors = (initWorld 0 emptyStore).Metrics.Errors :=
  ⟨⟨by decide, by decide, by decide, by decide⟩,
    ⟨((handlerPut_error_accounting exampleDecode (Except.ok 1) (some "connection refused")
        scenarioA (initWorld 0 emptyStore)).1 (by decide)).1,
      ((handlerPut_error_accounting exampleDecode (Except.ok 1) (some "connection refused")
        scenarioA (initWorld 0 emptyStore)).1 (by decide)).2.1,
      ((handlerPut_error_accounting exampleDecode (Except.ok 1) (some "connection refused")
        scenarioA (initWorld 0 emptyStore)).1 (by decide)).2.2 (by decide) (by decide)⟩,
    ⟨((handlerPut_error_accounting exampleDecode (Except.ok 1) (some "connection refused")
        scenarioA saturatedWorld).1 (by decide)).1,
      ((handlerPut_error_accounting exampleDecode (Except.ok 1) (some "connection refused")
        scenarioA saturatedWorld).1 (by decide)).2.1⟩,
    (handlerPut_error_accounting exampleDecode (Except.ok 1) none scenarioA
      (initWorld 0 emptyStore)).2 (by decide)⟩

/-- C3, counterexample: with `Metrics.Errors = 2147483647`, scenario B (a
body that does not decode) answers 500 and leaves
`Metrics.Errors = -2147483648`, which is not the value before plus 1. -/
theorem handlerPut_Errors_wraps :
    isInt32 saturatedWorld.Metrics.Errors ∧
    putFails exampleDecode (Except.ok 1) none scenarioB = true ∧
    (handlerPut exampleDecode (Except.ok 1) none scenarioB saturatedWorld).status = 500 ∧
    (handlerPut exampleDecode (Except.ok 1) none scenarioB saturatedWorld).world.Metrics.Errors
      = -2147483648 ∧
    (handlerPut exampleDecode (Except.ok 1) none scenarioB saturatedWorld).world.Metrics.Errors
      ≠ saturatedWorld.Metrics.Errors + 1 := by
  decide

/-- C4: `handlerPut` short-circuits. When the body does not decode, neither
`flake.NextID` nor `rdb.RPush` is called; when `flake.NextID` fails,
`rdb.RPush` is not called; in both cases the store is what it was. A push is
attempted only if decoding and identifier generation both succeeded. -/
theorem handlerPut_short_circuit
    (decode : String → Except String RedisRPushRequestStruct)
    (nextID : Except String Nat) (rpushErr : Option String) (req : Request) (w : World) :
    (∀ e, decode req.Body = Except.error e →
      Call.NextID ∉ (handlerPut decode nextID rpushErr req w).calls ∧
      (∀ k v, Call.RPush k v ∉ (handlerPut decode nextID rpushErr req w).calls) ∧
      (handlerPut decode nextID rpushErr req w).world.store = w.store) ∧
    (∀ r e, decode req.Body = Except.ok r → nextID = Except.error e →
      (∀ k v, Call.RPush k v ∉ (handlerPut decode nextID rpushErr req w).calls) ∧
      (handlerPut decode nextID rpushErr req w).world.store = w.store) ∧
    (∀ k v, Call.RPush k v ∈ (handlerPut decode nextID rpushErr req w).calls →
      ∃ r uid, decode req.Body = Except.ok r ∧ nextID = Except.ok uid) := by
  rw [handlerPut_calls, handlerPut_store]
  refine ⟨?_, ?_, ?_⟩
  · intro e he
    rw [he]
    simp
  · intro r e hr he
    rw [hr, he]
    simp
  · intro k v
    cases hd : decode req.Body with
    | error e => simp
    | ok r =>
      cases hn : nextID with
      | error e => simp
      | ok uid => intro _; exact ⟨r, uid, rfl, rfl⟩

/-- C4, witness: scenario B (`not json`) on a store that holds a list, and
scenario A when the identifier generator fails. -/
theorem handlerPut_short_circuit_witness :
    (exampleDecode scenarioB.Body = Except.error "invalid character" ∧
      (handlerPut exampleDecode (Except.ok 1) none scenarioB
        (initWorld 0 jobsStore)).calls = [Call.Decode "not json"] ∧
      (handlerPut exampleDecode (Except.ok 1) none scenarioB
        (initWorld 0 jobsStore)).world.store = (initWorld 0 jobsStore).store) ∧
    ((∀ k v, Call.RPush k v ∉ (handlerPut exampleDecode (Except.error "over the time limit")
        none scenarioA (initWorld 0 jobsStore)).calls) ∧
      (handlerPut exampleDecode (Except.error "over the time limit") none scenarioA
        (initWorld 0 jobsStore)).world.store = (initWorld 0 jobsStore).store) :=
  ⟨⟨rfl, by decide,
      ((handlerPut_short_circuit exampleDecode (Except.ok 1) none scenarioB
        (initWorld 0 jobsStore)).1 "invalid character" rfl).2.2⟩,
    (handlerPut_short_circuit exampleDecode (Except.error "over the time limit") none scenarioA
      (initWorld 0 jobsStore)).2.1 { Channel := "jobs", Payload := "\x7b\"x\":1\x7d" }
      "over the time limit" rfl rfl⟩

/-- C5: when the body decodes to channel `c` and payload `p` and both
`flake.NextID` and `rdb.RPush` succeed, `handlerPut` answers 200, the one
push it makes is of `p` onto `c`, list `c` of the store is the list before
with `p` appended at the tail, and every other list is unchanged. -/
theorem handlerPut_appends_payload
    (decode : String → Except String RedisRPushRequestStruct)
    (nextID : Except String Nat) (rpushErr : Option String) (req : Request) (w : World)
    (c p : String) (uid : Nat)
    (hd : decode req.Body = Except.ok { Channel := c, Payload := p })
    (hid : nextID = Except.ok uid) (hpush : rpushErr = none) :
    (handlerPut decode nextID rpushErr req w).status = StatusOK ∧
    (handlerPut decode nextID rpushErr req w).calls =
      [Call.Decode req.Body, Call.NextID, Call.RPush c p] ∧
    (handlerPut decode nextID rpushErr req w).world.store c = w.store c ++ [p] ∧
    (∀ k, k ≠ c → (handlerPut decode nextID rpushErr req w).world.store k = w.store k) := by
  rw [handlerPut_status, handlerPut_calls, handlerPut_store]
  subst hid hpush
  simp only [putFails, hd, RPush]
  refine ⟨by simp, trivial, by simp, ?_⟩
  intro k hk
  simp [hk]

/-- C5, witness: scenario A on a store whose list `jobs` holds two elements;
the list then holds these two followed by the literal payload text. -/
theorem handlerPut_appends_payload_witness :
    (exampleDecode scenarioA.Body = Except.ok { Channel := "jobs", Payload := "\x7b\"x\":1\x7d" } ∧
      jobsStore "jobs" ++ ["\x7b\"x\":1\x7d"] = ["first", "second", "\x7b\"x\":1\x7d"]) ∧
    ((handlerPut exampleDecode (Except.ok 1) none scenarioA (initWorld 0 jobsStore)).status
        = StatusOK ∧
      (handlerPut exampleDecode (Except.ok 1) none scenarioA (initWorld 0 jobsStore)).calls =
        [Call.Decode scenarioA.Body, Call.NextID, Call.RPush "jobs" "\x7b\"x\":1\x7d"] ∧
      (handlerPut exampleDecode (Except.ok 1) none scenarioA (initWorld 0 jobsStore)).world.store
        "jobs" = (initWorld 0 jobsStore).store "jobs" ++ ["\x7b\"x\":1\x7d"] ∧
      (∀ k, k ≠ "jobs" →
        (handlerPut exampleDecode (Except.ok 1) none scenarioA (initWorld 0 jobsStore)).world.store
          k = (initWorld 0 jobsStore).store k)) :=
  ⟨⟨rfl, by decide⟩,
    handlerPut_appends_payload exampleDecode (Except.ok 1) none scenarioA
      (initWorld 0 jobsStore) "jobs" "\x7b\"x\":1\x7d" 1 rfl rfl rfl⟩

/-- C6, as the code has it: for every metrics state whose counters are
`int32` values and every call of `handlerIndex`, `handlerPut` or
`handlerMetrics`, `Metrics.Warnings` and `Metrics.Success` are unchanged, and
each of `Metrics.Index`, `Metrics.Put` and `Metrics.Errors` after the call is
greater than or equal to its value before, unless it held 2147483647 and the
call incremented it, in which case it is -2147483648 after the call. -/
theorem counters_monotone_until_wrap
    (decode : String → Except String RedisRPushRequestStruct) (r : Req) (w : World)
    (hI : isInt32 w.Metrics.Index) (hP : isInt32 w.Metrics.Put)
    (hE : isInt32 w.Metrics.Errors) :
    (w.Metrics.Index ≤ (serve decode r w).world.Metrics.Index ∨
      (w.Metrics.Index = MaxInt32 ∧ (serve decode r w).world.Metrics.Index = MinInt32)) ∧
    (w.Metrics.Put ≤ (serve decode r w).world.Metrics.Put ∨
      (w.Metrics.Put = MaxInt32 ∧ (serve decode r w).world.Metrics.Put = MinInt32)) ∧
    (w.Metrics.Errors ≤ (serve decode r w).world.Metrics.Errors ∨
      (w.Metrics.Errors = MaxInt32 ∧ (serve decode r w).world.Metrics.Errors = MinInt32)) ∧
    (serve decode r w).world.Metrics.Warnings = w.Metrics.Warnings ∧
    (serve decode r w).world.Metrics.Success = w.Metrics.Success := by
  refine ⟨step_monotone_or_wraps _ _ hI (serve_Index decode w r), ?_,
    step_monotone_or_wraps _ _ hE (serve_Errors decode w r),
    serve_Warnings decode w r, serve_Success decode w r⟩
  apply step_monotone_or_wraps _ _ hP
  rw [serve_Put]
  cases isPut r
  · left; rfl
  · right; rfl

/-- C6, witness: a failing `handlerPut` from the initial state; `Put` and
`Errors` go from 0 to 1. -/
theorem counters_monotone_until_wrap_witness :
    (isInt32 (initWorld 0 emptyStore).Metrics.Index ∧
      isInt32 (initWorld 0 emptyStore).Metrics.Put ∧
      isInt32 (initWorld 0 emptyStore).Metrics.Errors) ∧
    (serve exampleDecode (Req.put scenarioB (Except.ok 1) none)
      (initWorld 0 emptyStore)).world.Metrics.Put = 1 ∧
    (serve exampleDecode (Req.put scenarioB (Except.ok 1) none)
      (initWorld 0 emptyStore)).world.Metrics.Errors = 1 ∧
    ((initWorld 0 emptyStore).Metrics.Index ≤
        (serve exampleDecode (Req.put scenarioB (Except.ok 1) none)
          (initWorld 0 emptyStore)).world.Metrics.Index ∨
      ((initWorld 0 emptyStore).Metrics.Index = MaxInt32 ∧
        (serve exampleDecode (Req.put scenarioB (Except.ok 1) none)
          (initWorld 0 emptyStore)).world.Metrics.Index = MinInt32)) :=
  ⟨⟨by decide, by decide, by decide⟩, by decide, by decide,
    (counters_monotone_until_wrap exampleDecode (Req.put scenarioB (Except.ok 1) none)
      (initWorld 0 emptyStore) (by decide) (by decide) (by decide)).1⟩

/-- C6, counterexample: with `Metrics.Index = 2147483647`, a value the `int32`
field can hold, one call of `handlerIndex` leaves `Metrics.Index = -2147483648`,
which is less than the value before the call. -/
theorem handlerIndex_Index_wraps :
    isInt32 saturatedWorld.Metrics.Index ∧
    (handlerIndex saturatedWorld).world.Metrics.Index = -2147483648 ∧
    ¬ (saturatedWorld.Metrics.Index ≤ (handlerIndex saturatedWorld).world.Metrics.Index) := by
  decide

/-- C8: the identifier returned by `flake.NextID` reaches the log events only.
For every body, every starting state and every two identifiers, the two runs
of `handlerPut` (same push outcome) end in the same status, the same response
body, the same metrics, the same watched set and the same store, and make the
same collaborator calls; the value pushed is the decoded payload alone. -/
theorem handlerPut_uid_only_logged
    (decode : String → Except String RedisRPushRequestStruct)
    (rpushErr : Option String) (req : Request) (w : World) (u1 u2 : Nat) :
    (handlerPut decode (Except.ok u1) rpushErr req w).status
      = (handlerPut decode (Except.ok u2) rpushErr req w).status ∧
    (handlerPut decode (Except.ok u1) rpushErr req w).body
      = (handlerPut decode (Except.ok u2) rpushErr req w).body ∧
    (handlerPut decode (Except.ok u1) rpushErr req w).world.Metrics
      = (handlerPut decode (Except.ok u2) rpushErr req w).world.Metrics ∧
    (handlerPut decode (Except.ok u1) rpushErr req w).world.watchedRedisChannels
      = (handlerPut decode (Except.ok u2) rpushErr req w).world.watchedRedisChannels ∧
    (handlerPut decode (Except.ok u1) rpushErr req w).world.store
      = (handlerPut decode (Except.ok u2) rpushErr req w).world.store ∧
    (handlerPut decode (Except.ok u1) rpushErr req w).calls
      = (handlerPut decode (Except.ok u2) rpushErr req w).calls ∧
    (∀ k v, Call.RPush k v ∈ (handlerPut decode (Except.ok u1) rpushErr req w).calls →
      ∃ r, decode req.Body = Except.ok r ∧ k = r.Channel ∧ v = r.Payload) := by
  refine ⟨?_, ?_, ?_, ?_, ?_, ?_, ?_⟩
  · unfold handlerPut; cases decode req.Body <;> cases rpushErr <;> rfl
  · unfold handlerPut; cases decode req.Body <;> cases rpushErr <;> rfl
  · unfold handlerPut; cases decode req.Body <;> cases rpushErr <;> rfl
  · unfold handlerPut; cases decode req.Body <;> cases rpushErr <;> rfl
  · unfold handlerPut; cases decode req.Body <;> cases rpushErr <;> rfl
  · unfold handlerPut; cases decode req.Body <;> cases rpushErr <;> rfl
  · rw [handlerPut_calls]
    intro k v
    cases hd : decode req.Body with
    | error e => simp
    | ok r =>
      simp only [List.mem_cons, List.mem_singleton, reduceCtorEq, false_or, Call.RPush.injEq,
        List.mem_nil_iff, or_false]
      intro h
      exact ⟨r, rfl, h.1, h.2⟩

/-- The identifier does reach the log: two successful runs of scenario A with
different identifiers differ in their log events. -/
theorem handlerPut_uid_logged :
    (handlerPut exampleDecode (Except.ok 1) none scenarioA (initWorld 0 emptyStore)).log
      ≠ (handlerPut exampleDecode (Except.ok 2) none scenarioA (initWorld 0 emptyStore)).log := by
  decide

/-- C7: for every metrics state the body written by `handlerMetrics` holds
the sample lines `taskq_publisher_requests{method="put"} N`,
`taskq_publisher_errors E` and `taskq_publisher_index I` with the decimal
values of `Metrics.Put`, `Metrics.Errors` and `Metrics.Index`. In every state
the process reaches from the initial state, and in every state whose channel
names hold no newline, the sample lines of the body are exactly one line
`taskq_publisher_channel_len{channel="X"} L` for each entry `X -> L` of
`Metrics.WatchedChannels`, followed by these three, and no others. After
exactly one successful `handlerPut` from the initial state they are the lines
with `put` 1, errors 0 and index 0. -/
theorem handlerMetrics_exposition
    (decode : String → Except String RedisRPushRequestStruct)
    (nextID : Except String Nat) (rpushErr : Option String) (req : Request) (w : World)
    (rs : List Req) (started : Nat) (store : String → List String) :
    (putLine w.Metrics ∈ sampleLines (handlerMetrics w).body ∧
      errorsLine w.Metrics ∈ sampleLines (handlerMetrics w).body ∧
      indexLine w.Metrics ∈ sampleLines (handlerMetrics w).body) ∧
    sampleLines (handlerMetrics (run decode rs (initWorld started store))).body =
      (run decode rs (initWorld started store)).Metrics.WatchedChannels.map channelLine ++
        [putLine (run decode rs (initWorld started store)).Metrics,
         errorsLine (run decode rs (initWorld started store)).Metrics,
         indexLine (run decode rs (initWorld started store)).Metrics] ∧
    ((∀ e ∈ w.Metrics.WatchedChannels, noNewline e.1) →
      sampleLines (handlerMetrics w).body =
        w.Metrics.WatchedChannels.map channelLine ++
          [putLine w.Metrics, errorsLine w.Metrics, indexLine w.Metrics]) ∧
    (putFails decode nextID rpushErr req = false →
      sampleLines (handlerMetrics
          (handlerPut decode nextID rpushErr req (initWorld started store)).world).body =
        ["taskq_publisher_requests\x7bmethod=\"put\"\x7d 1", "taskq_publisher_errors 0",
         "taskq_publisher_index 0"]) := by
  have hR : (run decode rs (initWorld started store)).Metrics.WatchedChannels = [] :=
    (run_maps decode rs (initWorld started store)).1
  refine ⟨handlerMetrics_counter_lines w,
    handlerMetrics_sampleLines _ (by rw [hR]; intro e he; cases he),
    handlerMetrics_sampleLines w, ?_⟩
  intro hok
  have hf := handlerPut_frame decode nextID rpushErr req (initWorld started store)
  have hP := handlerPut_Put decode nextID rpushErr req (initWorld started store)
  have hE := handlerPut_Errors decode nextID rpushErr req (initWorld started store)
  rw [hok] at hE
  have hW : (handlerPut decode nextID rpushErr req
      (initWorld started store)).world.Metrics.WatchedChannels = [] := hf.2.2.2.1
  rw [handlerMetrics_sampleLines _ (by rw [hW]; intro e he; cases he)]
  unfold putLine errorsLine indexLine
  rw [hW, hP, hE, hf.1]
  have h0 : (initWorld started store).Metrics.Put = 0 := rfl
  have h1 : (initWorld started store).Metrics.Errors = 0 := rfl
  have h2 : (initWorld started store).Metrics.Index = 0 := rfl
  rw [h0, h1, h2]
  decide

/-- C7, witness: a state with two watched channels, `jobs -> 3` and
`mail -> 0`, whose body has five sample lines; the state after scenario A,
a refused push, a request to `/` and scenario B, whose body has the three
counter lines with `put` 3, errors 2 and index 1; and scenario A as the one
successful push. -/
theorem handlerMetrics_exposition_witness :
    ((∀ e ∈ watchedWorld.Metrics.WatchedChannels, noNewline e.1) ∧
      putFails exampleDecode (Except.ok 1) none scenarioA = false ∧
      watchedWorld.Metrics.WatchedChannels.map channelLine ++
        [putLine watchedWorld.Metrics, errorsLine watchedWorld.Metrics,
          indexLine watchedWorld.Metrics] =
        ["taskq_publisher_channel_len\x7bchannel=\"jobs\"\x7d 3",
         "taskq_publisher_channel_len\x7bchannel=\"mail\"\x7d 0",
         "taskq_publisher_requests\x7bmethod=\"put\"\x7d 9", "taskq_publisher_errors 2",
         "taskq_publisher_index 4"] ∧
      (run exampleDecode exampleRun (initWorld 0 emptyStore)).Metrics.WatchedChannels.map
          channelLine ++
        [putLine (run exampleDecode exampleRun (initWorld 0 emptyStore)).Metrics,
         errorsLine (run exampleDecode exampleRun (initWorld 0 emptyStore)).Metrics,
         indexLine (run exampleDecode exampleRun (initWorld 0 emptyStore)).Metrics] =
        ["taskq_publisher_requests\x7bmethod=\"put\"\x7d 3", "taskq_publisher_errors 2",
         "taskq_publisher_index 1"]) ∧
    sampleLines (handlerMetrics watchedWorld).body =
      watchedWorld.Metrics.WatchedChannels.map channelLine ++
        [putLine watchedWorld.Metrics, errorsLine watchedWorld.Metrics,
          indexLine watchedWorld.Metrics] ∧
    sampleLines (handlerMetrics (run exampleDecode exampleRun (initWorld 0 emptyStore))).body =
      (run exampleDecode exampleRun (initWorld 0 emptyStore)).Metrics.WatchedChannels.map
          channelLine ++
        [putLine (run exampleDecode exampleRun (initWorld 0 emptyStore)).Metrics,
         errorsLine (run exampleDecode exampleRun (initWorld 0 emptyStore)).Metrics,
         indexLine (run exampleDecode exampleRun (initWorld 0 emptyStore)).Metrics] ∧
    sampleLines (handlerMetrics
        (handlerPut exampleDecode (Except.ok 1) none scenarioA (initWorld 0 emptyStore)).world).body =
      ["taskq_publisher_requests\x7bmethod=\"put\"\x7d 1", "taskq_publisher_errors 0",
       "taskq_publisher_index 0"] :=
  ⟨⟨by decide, by decide, by decide, by decide⟩,
    (handlerMetrics_exposition exampleDecode (Except.ok 1) none scenarioA watchedWorld
      exampleRun 0 emptyStore).2.2.1 (by decide),
    (handlerMetrics_exposition exampleDecode (Except.ok 1) none scenarioA watchedWorld
      exampleRun 0 emptyStore).2.1,
    (handlerMetrics_exposition exampleDecode (Except.ok 1) none scenarioA watchedWorld
      exampleRun 0 emptyStore).2.2.2 (by decide)⟩

/-- C10: recording of destinations is off. A call of `handlerPut` leaves
`watchedRedisChannels`, `Metrics.WatchedChannels`, `Metrics.Index`,
`Metrics.Warnings` and `Metrics.Started` as they were, on every path; in
every state reached from the initial state by a sequence of `handlerIndex`,
`handlerPut` and `handlerMetrics` calls both maps are empty, and the body of
`handlerMetrics` holds no `taskq_publisher_channel_len` sample line. -/
theorem watched_channels_never_recorded
    (decode : String → Except String RedisRPushRequestStruct)
    (nextID : Except String Nat) (rpushErr : Option String) (req : Request) (w : World)
    (rs : List Req) (started : Nat) (store : String → List String) :
    ((handlerPut decode nextID rpushErr req w).world.watchedRedisChannels
        = w.watchedRedisChannels ∧
      (handlerPut decode nextID rpushErr req w).world.Metrics.WatchedChannels
        = w.Metrics.WatchedChannels ∧
      (handlerPut decode nextID rpushErr req w).world.Metrics.Index = w.Metrics.Index ∧
      (handlerPut decode nextID rpushErr req w).world.Metrics.Warnings = w.Metrics.Warnings ∧
      (handlerPut decode nextID rpushErr req w).world.Metrics.Started = w.Metrics.Started) ∧
    (run decode rs (initWorld started store)).watchedRedisChannels = [] ∧
    (run decode rs (initWorld started store)).Metrics.WatchedChannels = [] ∧
    (∀ l ∈ sampleLines (handlerMetrics (run decode rs (initWorld started store))).body,
      isChannelLenLine l = false) := by
  have hf := handlerPut_frame decode nextID rpushErr req w
  have hm := run_maps decode rs (initWorld started store)
  have hW : (run decode rs (initWorld started store)).Metrics.WatchedChannels = [] := hm.1
  refine ⟨⟨hf.2.2.2.2, hf.2.2.2.1, hf.1, hf.2.1, hf.2.2.1⟩, hm.2, hW, ?_⟩
  rw [handlerMetrics_sampleLines _ (by rw [hW]; intro e he; cases he), hW]
  intro l hl
  simp only [List.map_nil, List.nil_append, List.mem_cons, List.mem_singleton,
    List.mem_nil_iff, or_false] at hl
  rcases hl with rfl | rfl | rfl
  · exact putLine_not_channelLen _
  · exact errorsLine_not_channelLen _
  · exact indexLine_not_channelLen _

end Publisher
